import Mathlib

/-!
Verification of the MCPserver repository (server.py, logging_config.py).

The Python source is shallowly embedded: strings are `String`/`List Char`,
regular-expression operations on the three fixed context-tag patterns are
translated to explicit scanning functions, Python `None`/falsy handling is
modelled with `Option String`, machine time is an explicit natural-number
parameter (milliseconds), and exceptions are modelled with `Except`.
-/

set_option linter.unusedVariables false

/-! ### Basic string utilities (Python semantics) -/

/-- The whitespace characters recognised by Python `str.strip()` and the
regex class `\s` (ASCII fragment): space, tab, newline, carriage return,
vertical tab, form feed. -/
def isSpaceChar (c : Char) : Bool :=
  c = ' ' || c = '\t' || c = '\n' || c = '\r' || c = Char.ofNat 11 || c = Char.ofNat 12

/-- Python `str.strip()` on a character list: drop whitespace from both ends. -/
def trimChars (l : List Char) : List Char :=
  ((l.dropWhile isSpaceChar).reverse.dropWhile isSpaceChar).reverse

/-- Python `needle in haystack` substring test. -/
def containsSub (needle : List Char) (hay : List Char) : Bool :=
  needle.isPrefixOf hay ||
    match hay with
    | [] => false
    | _ :: t => containsSub needle t

/-- Substring test on `String`s. -/
def containsSubStr (needle hay : String) : Bool :=
  containsSub needle.toList hay.toList

/-- Python `s.split(sep)` for a one-character separator: splits on every
occurrence, keeping empty segments; `"".split(sep) == [""]`. -/
def pySplit (c : Char) : List Char → List (List Char)
  | [] => [[]]
  | x :: xs =>
    match pySplit c xs with
    | [] => [[]]
    | s :: ss => if x = c then [] :: s :: ss else (x :: s) :: ss

/-- Drop trailing occurrences of `c`. -/
def dropTrailing (c : Char) (l : List Char) : List Char :=
  (l.reverse.dropWhile (· = c)).reverse

/-- Python `s.strip(c)` for a one-character strip set: remove leading and
trailing occurrences of `c`. -/
def pyStrip (c : Char) (l : List Char) : List Char :=
  dropTrailing c (l.dropWhile (· = c))

/-- ASCII lower-casing of one character (model of lower-cased regex matching
under `re.IGNORECASE`). -/
def lowerChar (c : Char) : Char :=
  if 'A' ≤ c ∧ c ≤ 'Z' then Char.ofNat (c.toNat + 32) else c

/-- ASCII lower-casing of a character list. -/
def lowerStr (l : List Char) : List Char := l.map lowerChar

/-! ### Tag scanning (model of the three fixed regex patterns)

server.py uses exactly three extraction patterns of the shape
`\[TAG:\s*([^\]]+)\]` and three removal patterns of the shape
`\[TAG:[^\]]*\]\s*` (TAG one of SESSION_ID, PATH, BOT_ID).  `re.search`
returns the leftmost match; `re.sub` removes every non-overlapping match in
one left-to-right pass.  Both are translated to explicit scans below. -/

/-- Split a character list at its first `']'`: returns the characters before
it and the characters after it, or `none` when there is no `']'`. -/
def takeUntilRB : List Char → Option (List Char × List Char)
  | [] => none
  | c :: cs =>
    if c = ']' then some ([], cs)
    else
      match takeUntilRB cs with
      | none => none
      | some (pre, post) => some (c :: pre, post)

/-- Model of `re.search(r'\[TAG:\s*([^\]]+)\]', message)` followed by
`.group(1).strip()`.  A match at a position requires the literal prefix
`[TAG:` and a closing `']'` with at least one character in between; the
captured group, after `strip()`, is exactly the in-between text trimmed of
surrounding whitespace (greedy `\s*` backtracks one character when the
in-between text is all whitespace, and `strip()` erases the difference). -/
def findTagValue (tag : List Char) : List Char → Option (List Char)
  | [] => none
  | c :: cs =>
    if tag.isPrefixOf (c :: cs) then
      match takeUntilRB ((c :: cs).drop tag.length) with
      | some (content, _) =>
        if content.isEmpty then findTagValue tag cs else some (trimChars content)
      | none => findTagValue tag cs
    else findTagValue tag cs

/-- One left-to-right pass of `re.sub(r'\[TAG:[^\]]*\]\s*', '', message)`:
every occurrence of the literal prefix `[TAG:` followed (after any
non-`']'` characters) by `']'` is removed together with the whitespace run
after the `']'`; scanning resumes after the removed text.  `fuel` bounds the
recursion (each step consumes at least one character). -/
def removeTagAux (tag : List Char) : Nat → List Char → List Char
  | 0, m => m
  | fuel + 1, [] => []
  | fuel + 1, c :: cs =>
    if tag.isPrefixOf (c :: cs) then
      match takeUntilRB ((c :: cs).drop tag.length) with
      | some (_, post) => removeTagAux tag fuel (post.dropWhile isSpaceChar)
      | none => c :: removeTagAux tag fuel cs
    else c :: removeTagAux tag fuel cs

/-- Every occurrence of the tag pattern removed from `m`. -/
def removeTag (tag : List Char) (m : List Char) : List Char :=
  removeTagAux tag m.length m

/-! ### Data model -/

/-- The session-context dictionary built by `extract_context_from_message`:
`session_id`, `path` and `bot_id` are `None` (here `none`) when the tag is
absent. -/
structure SessionCtx where
  session_id : Option String
  path : Option String
  bot_id : Option String
  clean_message : String
  deriving DecidableEq, Repr

/-- The JSON reply object produced by `json.dumps` in the appointment tools:
`session_id` is `Option String` because Python may serialise `None` as
`null`; `form_url` is absent (`none`) on the failure replies. -/
structure ToolReply where
  reply : String
  form_url : Option String
  success : Bool
  session_id : Option String
  deriving DecidableEq, Repr

/-- A tool handler's return value: the appointment tools return a JSON
object (serialised dict), `rag_retrieval_tool` returns a plain string. -/
inductive ToolResult where
  | obj : ToolReply → ToolResult
  | text : String → ToolResult
  deriving DecidableEq, Repr

/-- Python exceptions relevant to the handlers: the `NameError` raised by
the undefined module-level `logger`, failures of the session-logger
creation (`get_session_logger` creates directories and opens the log file
on a cache miss, both of which can raise on filesystem failure), and
failures of the outbound vector-search call. -/
inductive PyExc where
  | nameError (msg : String)
  | loggerFailure (msg : String)
  | searchFailure (msg : String)
  deriving DecidableEq, Repr

/-- `str(e)` for a modelled exception. -/
def PyExc.msg : PyExc → String
  | .nameError m => m
  | .loggerFailure m => m
  | .searchFailure m => m

/-- An in-flight exception together with the value of the local variable
`session_id` at the moment it was raised (the handlers' `except` blocks read
`session_id if 'session_id' in locals() else ...`, and `session_id` is a
parameter, hence always in `locals()`). -/
structure RaiseInfo where
  exc : PyExc
  sidAtRaise : Option String
  deriving DecidableEq, Repr

/-- The process-wide configuration values imported from config.py (the four
destination URLs; the vector-store credentials are irrelevant to the
replies).  config.py is not part of the sources, so the URLs are opaque
parameters of the model. -/
structure Config where
  FORM_URL_1 : String
  FORM_URL_2 : String
  cancelAppointmentFormUrl : String
  rescheduleAppointmentFormUrl : String
  deriving DecidableEq, Repr

/-- Outcome of the outbound Pinecone `index.search_records` call: either an
exception or a list of hits (each hit modelled by its rendered text). -/
inductive PineconeOutcome where
  | raises (msg : String)
  | returns (hits : List String)
  deriving DecidableEq, Repr

/-- Outcome of the `get_session_logger` call a handler performs: on a cache
miss `_create_session_logger` runs `mkdir(parents=True)` and opens a
`FileHandler`, either of which can raise on filesystem failure; the
environment-dependent outcome is an explicit parameter of each handler. -/
inductive LoggerOutcome where
  | ok
  | raises (msg : String)
  deriving DecidableEq, Repr

/-! ### Python truthiness helpers -/

/-- Python truthiness of an optional string: `None` and `""` are falsy. -/
def pyTruthy : Option String → Bool
  | none => false
  | some s => !s.isEmpty

/-- Python `a or b` on optional strings. -/
def pyOr (a b : Option String) : Option String :=
  if pyTruthy a then a else b

/-- Python f-string rendering of an optional string (`str(None) = "None"`). -/
def sidStr : Option String → String
  | none => "None"
  | some s => s

/-! ### server.py : context extraction -/

def sessionTagChars : List Char := "[SESSION_ID:".toList
def pathTagChars : List Char := "[PATH:".toList
def botTagChars : List Char := "[BOT_ID:".toList

/-- `extract_context_from_message` (server.py lines 56-89): extract the first
match of each of the three tag patterns, and remove every occurrence of all
three patterns (SESSION_ID first, then PATH, then BOT_ID) to build the
stripped `clean_message`. -/
def extract_context_from_message (message : String) : SessionCtx :=
  let m := message.toList
  { session_id := (findTagValue sessionTagChars m).map (fun l => String.mk l)
    path := (findTagValue pathTagChars m).map (fun l => String.mk l)
    bot_id := (findTagValue botTagChars m).map (fun l => String.mk l)
    clean_message :=
      String.mk (trimChars (removeTag botTagChars
        (removeTag pathTagChars (removeTag sessionTagChars m)))) }

/-- `get_bot_id_from_path` (server.py lines 91-98):
`path.strip('/').split('/')[-1]`, with `""` returned for a falsy path. -/
def get_bot_id_from_path (path : String) : String :=
  if path.isEmpty then ""
  else String.mk ((pySplit '/' (pyStrip '/' path.toList)).getLastD [])

/-- The pure prefix of `get_session_context` (server.py lines 105-109):
extract the context and derive `bot_id` from `path` when `bot_id` is falsy
and `path` is truthy. -/
def resolveSessionContext (query : String) : SessionCtx :=
  let context := extract_context_from_message query
  if !pyTruthy context.bot_id && pyTruthy context.path then
    { context with bot_id := some (get_bot_id_from_path (sidStr context.path)) }
  else context

/-- `get_session_context` (server.py lines 100-116).  After building the
context and writing it to the `session_context` context variable (a state
write no caller observes), line 114 executes `logger.info(...)`; the name
`logger` is never defined at module scope in server.py, so the call raises
`NameError("name 'logger' is not defined")` on every invocation and the
function never returns its context. -/
def get_session_context (query : String) : Except PyExc SessionCtx :=
  let context := resolveSessionContext query
  Except.error (PyExc.nameError "name 'logger' is not defined")

/-! ### server.py : URL validation -/

/-- A character allowed in a URL scheme by `urllib.parse` (letters, digits,
`+`, `-`, `.`). -/
def isSchemeChar (c : Char) : Bool :=
  c.isAlpha || c.isDigit || c = '+' || c = '-' || c = '.'

/-- The `scheme` and `netloc` components of `urllib.parse.urlparse`, for the
fragment of URL syntax the validator inspects: the scheme is the lower-cased
text before the first `':'` when that text is a well-formed scheme (leading
letter, scheme characters only), and the netloc is the text after `"//"` up
to the next `'/'`, `'?'` or `'#'`. -/
structure ParsedUrl where
  scheme : String
  netloc : String
  deriving DecidableEq, Repr

/-- Model of `urllib.parse.urlparse` restricted to `scheme` and `netloc`. -/
def pyUrlparse (url : String) : ParsedUrl :=
  let l := url.toList
  let before := l.takeWhile (· ≠ ':')
  let hasColon := decide (before.length < l.length)
  let validScheme := hasColon && !before.isEmpty &&
    (match before.head? with | some c => c.isAlpha | none => false) &&
    before.all isSchemeChar
  let rest := if validScheme then l.drop (before.length + 1) else l
  let scheme := if validScheme then lowerStr before else []
  let netloc :=
    if ['/', '/'].isPrefixOf rest then
      (rest.drop 2).takeWhile (fun c => !(c = '/' || c = '?' || c = '#'))
    else []
  { scheme := String.mk scheme, netloc := String.mk netloc }

/-- The `dangerous_patterns` list of `validate_url` (server.py lines
178-188), with the regex `172\.(1[6-9]|2[0-9]|3[0-1])\.` expanded into its
sixteen literal alternatives `172.16.` .. `172.31.`; every pattern is a
literal string, searched anywhere in the URL under `re.IGNORECASE`. -/
def dangerousPatterns : List (List Char) :=
  ["localhost".toList, "127.0.0.1".toList, "0.0.0.0".toList,
   "192.168.".toList, "10.".toList] ++
  (List.range 16).map (fun i => ("172." ++ toString (16 + i) ++ ".").toList) ++
  ["file://".toList, "javascript:".toList, "data:".toList]

/-- The development exception inside the pattern loop (server.py line 193):
`'localhost' in url and ('3001' in url or '5174' in url)`, case-sensitive
substring tests on the original URL. -/
def devException (url : String) : Bool :=
  containsSubStr "localhost" url &&
    (containsSubStr "3001" url || containsSubStr "5174" url)

/-- The pattern loop of `validate_url` (server.py lines 190-195).  The loop
returns the security failure at the first pattern that matches unless the
development exception holds; the exception does not depend on the pattern,
so the loop blocks exactly when some pattern matches the lower-cased URL and
the exception fails. -/
def securityBlocked (url : String) : Bool :=
  dangerousPatterns.any (fun p => containsSub p (lowerStr url.toList)) &&
    !devException url

/-- The `{'valid': ..., 'reason': ...}` dictionary returned by
`validate_url`. -/
structure UrlCheck where
  valid : Bool
  reason : String
  deriving DecidableEq, Repr

/-- `validate_url` (server.py lines 154-200): falsy-URL check, scheme check,
non-empty netloc check, netloc length/dot check, then the dangerous-pattern
loop.  The `urlparse` call in the modelled fragment is total, so the final
`except` arm is unreachable. -/
def validate_url (url : String) : UrlCheck :=
  if url.isEmpty then { valid := false, reason := "No URL provided" }
  else
    let parsed := pyUrlparse url
    if !(parsed.scheme = "http" || parsed.scheme = "https") then
      { valid := false, reason := "Only HTTP and HTTPS protocols are allowed" }
    else if parsed.netloc.isEmpty then
      { valid := false, reason := "Invalid URL format - no domain found" }
    else if parsed.netloc.length < 3 || !parsed.netloc.toList.contains '.' then
      { valid := false, reason := "Invalid domain format" }
    else if securityBlocked url then
      { valid := false, reason := "URL not allowed for security reasons" }
    else { valid := true, reason := "URL is valid" }

/-! ### server.py : tool handlers

Each handler is `try: body except: fallback-reply`.  The body is modelled as
an `Except RaiseInfo _` computation recording, on the error side, the value
of the local `session_id` at the raise point; the handler function is the
total catch wrapper.  A successfully created session logger never
influences the replies, but its creation can raise (see `LoggerOutcome`),
so each body threads the logger-creation outcome at the exact program point
of the `get_session_logger` call. -/

/-- The `'[SESSION_ID:' in query or '[PATH:' in query or '[BOT_ID:' in
query` test used by every handler. -/
def hasMarker (query : String) : Bool :=
  containsSubStr "[SESSION_ID:" query || containsSubStr "[PATH:" query ||
    containsSubStr "[BOT_ID:" query

/-- The handler guard `query and (markers)`. -/
def markerGuard (query : String) : Bool :=
  !query.isEmpty && hasMarker query

/-- The fallback applied by every handler: `if not session_id: session_id =
'fallback-session-id'`. -/
def sessionFallback (session_id : Option String) : Option String :=
  if pyTruthy session_id then session_id else some "fallback-session-id"

/-- `'&' if '?' in FORM_URL else '?'` followed by the
`session_id=...&ts=...` query parameters (`ts` is `int(time.time() * 1000)`,
modelled by the parameter `tMs`). -/
def withSessionParams (base : String) (session_id : Option String) (tMs : Nat) : String :=
  let separator := if containsSubStr "?" base then "&" else "?"
  base ++ separator ++ "session_id=" ++ sidStr session_id ++ "&ts=" ++ toString tMs

/-- The `try` body of `book_appointment_tool` (server.py lines 215-250).
When the query carries a context marker the body calls
`get_session_context`, which always raises (see `get_session_context`), so
the tag-derived reassignments of `bot_id`/`session_id` are dead code kept
here under the `.ok` arm of the match.  The session-logger creation at line
228 happens after the fallback assignment and can raise. -/
def bookBody (query : String) (session_id bot_id : Option String)
    (cfg : Config) (tMs : Nat) (lg : LoggerOutcome) : Except RaiseInfo ToolReply :=
  let step : Except RaiseInfo (Option String × Option String) :=
    if markerGuard query then
      match get_session_context query with
      | .error e => .error { exc := e, sidAtRaise := session_id }
      | .ok context =>
        .ok (pyOr context.session_id session_id, pyOr context.bot_id bot_id)
    else .ok (session_id, bot_id)
  match step with
  | .error e => .error e
  | .ok (session_id, bot_id) =>
    let session_id := sessionFallback session_id
    match lg with
    | .raises msg => .error { exc := .loggerFailure msg, sidAtRaise := session_id }
    | .ok =>
      let FORM_URL := if bot_id = some "fp01" then cfg.FORM_URL_2 else cfg.FORM_URL_1
      .ok { reply := "I\x27m opening the appointment booking form for you. Please fill it out to book your appointment."
            form_url := some (withSessionParams FORM_URL session_id tMs)
            success := true
            session_id := session_id }

/-- `book_appointment_tool` (server.py lines 212-264): the `try` body with
its `except` arm, which returns the fixed failure reply carrying
`session_id if 'session_id' in locals() else 'unknown'`; `session_id` is a
parameter, hence always in `locals()`, so the reply carries its value at the
raise point. -/
def book_appointment_tool (query : String) (session_id bot_id : Option String)
    (cfg : Config) (tMs : Nat) (lg : LoggerOutcome) : ToolResult :=
  match bookBody query session_id bot_id cfg tMs lg with
  | .ok r => .obj r
  | .error e =>
    .obj { reply := "Sorry, I couldn\x27t open the booking form at this moment."
           form_url := none
           success := false
           session_id := e.sidAtRaise }

/-- The `try` body of `cancel_appointment_tool` (server.py lines 270-302).
The fallback session id is assigned first (lines 272-273); the
session-logger creation at line 276 can raise, with the fallback-applied
`session_id` in scope; tags are then read with
`extract_context_from_message` (which cannot raise); `path` is never read
and `bot_id` is only logged. -/
def cancelBody (query : String) (session_id path bot_id : Option String)
    (cfg : Config) (tMs : Nat) (lg : LoggerOutcome) : Except RaiseInfo ToolReply :=
  let session_id := sessionFallback session_id
  match lg with
  | .raises msg => .error { exc := .loggerFailure msg, sidAtRaise := session_id }
  | .ok =>
    let session_id :=
      if markerGuard query then
        pyOr (extract_context_from_message query).session_id session_id
      else session_id
    let bot_id :=
      if markerGuard query then
        pyOr (extract_context_from_message query).bot_id bot_id
      else bot_id
    .ok { reply := "I\x27m opening the appointment cancellation form for you. Please fill it out to cancel your appointment."
          form_url := some (withSessionParams cfg.cancelAppointmentFormUrl session_id tMs)
          success := true
          session_id := session_id }

/-- `cancel_appointment_tool` (server.py lines 267-316): the `try` body with
its `except` arm (lines 304-316), which returns the fixed failure reply
carrying the `session_id` in scope at the raise (a parameter, hence always
in `locals()`). -/
def cancel_appointment_tool (query : String) (session_id path bot_id : Option String)
    (cfg : Config) (tMs : Nat) (lg : LoggerOutcome) : ToolResult :=
  match cancelBody query session_id path bot_id cfg tMs lg with
  | .ok r => .obj r
  | .error e =>
    .obj { reply := "Sorry, I couldn\x27t open the appointment cancellation form at this moment."
           form_url := none
           success := false
           session_id := e.sidAtRaise }

/-- The `try` body of `reschedule_appointment_tool` (server.py lines
322-354): identical structure to `cancelBody` with the reschedule URL and
texts. -/
def rescheduleBody (query : String) (session_id path bot_id : Option String)
    (cfg : Config) (tMs : Nat) (lg : LoggerOutcome) : Except RaiseInfo ToolReply :=
  let session_id := sessionFallback session_id
  match lg with
  | .raises msg => .error { exc := .loggerFailure msg, sidAtRaise := session_id }
  | .ok =>
    let session_id :=
      if markerGuard query then
        pyOr (extract_context_from_message query).session_id session_id
      else session_id
    let bot_id :=
      if markerGuard query then
        pyOr (extract_context_from_message query).bot_id bot_id
      else bot_id
    .ok { reply := "I\x27m opening the appointment rescheduling form for you. Please fill it out to reschedule your appointment."
          form_url := some (withSessionParams cfg.rescheduleAppointmentFormUrl session_id tMs)
          success := true
          session_id := session_id }

/-- `reschedule_appointment_tool` (server.py lines 319-368): the `try` body
with its `except` arm (lines 356-368). -/
def reschedule_appointment_tool (query : String) (session_id path bot_id : Option String)
    (cfg : Config) (tMs : Nat) (lg : LoggerOutcome) : ToolResult :=
  match rescheduleBody query session_id path bot_id cfg tMs lg with
  | .ok r => .obj r
  | .error e =>
    .obj { reply := "Sorry, I couldn\x27t open the appointment rescheduling form at this moment."
           form_url := none
           success := false
           session_id := e.sidAtRaise }

/-- Python `repr` of a list of pre-rendered hit objects, as interpolated by
`f"Here's what I found:\n\n{results}"`. -/
def pyListRepr (hits : List String) : String :=
  "[" ++ String.intercalate ", " hits ++ "]"

/-- The `try` body of `rag_retrieval_tool` (server.py lines 377-430).  With
a context marker present, `get_session_context` raises before anything else;
otherwise the session-logger creation at line 393 (which can raise) runs
after the fallback assignment, then `bot_id` may be derived from `path`,
the namespace defaults to `"hr4s"`, and the outbound search either raises
(modelled by the `PineconeOutcome` parameter) or yields hits. -/
def ragBody (query : String) (session_id path bot_id : Option String)
    (lg : LoggerOutcome) (pc : PineconeOutcome) : Except RaiseInfo String :=
  let step : Except RaiseInfo (Option String × Option String × Option String) :=
    if markerGuard query then
      match get_session_context query with
      | .error e => .error { exc := e, sidAtRaise := session_id }
      | .ok context =>
        .ok (pyOr context.session_id session_id,
             pyOr context.path path, pyOr context.bot_id bot_id)
    else .ok (session_id, path, bot_id)
  match step with
  | .error e => .error e
  | .ok (session_id, path, bot_id) =>
    let session_id := sessionFallback session_id
    match lg with
    | .raises msg => .error { exc := .loggerFailure msg, sidAtRaise := session_id }
    | .ok =>
      let bot_id :=
        if !pyTruthy bot_id && pyTruthy path then
          some (get_bot_id_from_path (sidStr path))
        else bot_id
      let ns := if pyTruthy bot_id then sidStr bot_id else "hr4s"
      match pc with
      | .raises msg => .error { exc := .searchFailure msg, sidAtRaise := session_id }
      | .returns hits =>
        if hits.isEmpty then .ok "Sorry, I couldn\x27t find any relevant information."
        else .ok ("Here\x27s what I found:\n\n" ++ pyListRepr hits)

/-- `rag_retrieval_tool` (server.py lines 371-441): the `try` body with its
`except` arm, which returns the plain string
`f"Error retrieving context from Pinecone: {e}"` (not a JSON reply). -/
def rag_retrieval_tool (query : String) (session_id path bot_id : Option String)
    (lg : LoggerOutcome) (pc : PineconeOutcome) : ToolResult :=
  match ragBody query session_id path bot_id lg pc with
  | .ok s => .text s
  | .error e => .text ("Error retrieving context from Pinecone: " ++ e.exc.msg)

/-! ### logging_config.py : session logger registry -/

/-- A configured logger as far as the data model observes it: the
`logging.getLogger` name, the log file path, the level, and the disabled
propagation flag. -/
structure SessionLogger where
  name : String
  filePath : String
  level : Nat
  propagate : Bool
  deriving DecidableEq, Repr

/-- The base log directory of `_create_session_logger` (a Windows-style
path; the `Path` separator is platform dependent and modelled as `/`). -/
def baseLogDir : String := "C:\\logs\\Evaa agentic logs"

/-- `_create_session_logger` (logging_config.py lines 48-106): a fresh
logger named `{project_name}.{session_id}` writing to
`{base}/{project}/{date}_SESSION-{session_id}.log`, propagation disabled.
`dateStr` is the `datetime.now().strftime('%Y-%m-%d')` value, an explicit
parameter of the model. -/
def _create_session_logger (project_name session_id : String) (log_level : Nat)
    (dateStr : String) : SessionLogger :=
  { name := project_name ++ "." ++ session_id
    filePath := baseLogDir ++ "/" ++ project_name ++ "/" ++ dateStr ++
      "_SESSION-" ++ session_id ++ ".log"
    level := log_level
    propagate := false }

/-- First-match association lookup, the model of `logger_key in
_session_loggers` / `_session_loggers[logger_key]`. -/
def assocFind (k : String) : List (String × SessionLogger) → Option SessionLogger
  | [] => none
  | (k', v) :: rest => if k' = k then some v else assocFind k rest

/-- The falsy-session replacement of `get_session_logger` (logging_config.py
lines 31-32). -/
def effectiveSid (session_id : Option String) : String :=
  if pyTruthy session_id then sidStr session_id else "NO_SESSION"

/-- The `"{project_name}_{session_id}"` cache key. -/
def sessionKey (project_name : String) (session_id : Option String) : String :=
  project_name ++ "_" ++ effectiveSid session_id

/-- `get_session_logger` (logging_config.py lines 18-45), sequentialised:
the `_session_loggers` cache is explicit state, the lock collapses in the
sequential model.  Returns the logger and the updated cache. -/
def get_session_logger (st : List (String × SessionLogger))
    (project_name : String) (session_id : Option String) (log_level : Nat)
    (dateStr : String) : SessionLogger × List (String × SessionLogger) :=
  let sid := effectiveSid session_id
  let logger_key := project_name ++ "_" ++ sid
  match assocFind logger_key st with
  | some l => (l, st)
  | none =>
    let l := _create_session_logger project_name sid log_level dateStr
    (l, (logger_key, l) :: st)

/-! ### Spec-side definitions

These definitions follow the words of the specification (not the code); the
claim theorems compare the code embeddings against them. -/

/-- Modelled from the spec: "the last non-empty segment of `path` split on
`/` (empty string if path has no segments)". -/
def lastNonEmptySegment (path : String) : String :=
  String.mk (((pySplit '/' path.toList).filter (fun s => !s.isEmpty)).getLastD [])

/-- Modelled from the spec: the block-list condition of the amended C4 — the
URL string, lower-cased, contains one of the literal block-list entries
(`localhost`, `127.0.0.1`, `0.0.0.0`, `192.168.`, `10.`, `172.16.` ..
`172.31.`) or one of the dangerous scheme markers (`file://`,
`javascript:`, `data:`), and the case-sensitive development exception
(`localhost` together with `3001` or `5174`) does not apply. -/
def securitySpecCondition (url : String) : Prop :=
  (containsSub "localhost".toList (lowerStr url.toList) = true ∨
   containsSub "127.0.0.1".toList (lowerStr url.toList) = true ∨
   containsSub "0.0.0.0".toList (lowerStr url.toList) = true ∨
   containsSub "192.168.".toList (lowerStr url.toList) = true ∨
   containsSub "10.".toList (lowerStr url.toList) = true ∨
   (∃ n, 16 ≤ n ∧ n ≤ 31 ∧
     containsSub ("172." ++ toString n ++ ".").toList (lowerStr url.toList) = true) ∨
   containsSub "file://".toList (lowerStr url.toList) = true ∨
   containsSub "javascript:".toList (lowerStr url.toList) = true ∨
   containsSub "data:".toList (lowerStr url.toList) = true) ∧
  ¬(containsSubStr "localhost" url = true ∧
    (containsSubStr "3001" url = true ∨ containsSubStr "5174" url = true))

/-! ### Helper lemmas -/

theorem hasMarker_ne_empty {q : String} (h : hasMarker q = true) :
    q.isEmpty = false := by
  cases hqe : q.isEmpty with
  | false => rfl
  | true =>
    exfalso
    rw [(String.isEmpty_iff q).mp hqe] at h
    exact absurd h (by decide)

theorem markerGuard_of_hasMarker {q : String} (h : hasMarker q = true) :
    markerGuard q = true := by
  unfold markerGuard
  rw [h, hasMarker_ne_empty h]
  rfl

/-! ### Claim C1 -/

/-- C1: the spec invariant "session_id in a returned reply is never
empty/null" fails on the code: calling `book_appointment_tool` with a
message that embeds a session tag and a null `session_id` parameter raises
`NameError` inside `get_session_context` before the fallback assignment, and
the `except` arm returns the parameter value — `null` — because
`'session_id' in locals()` always holds for a parameter.  The reply at this
failing input carries `session_id = none`. -/
theorem C1_book_exception_null_session (cfg : Config) (tMs : Nat) (lg : LoggerOutcome) :
    book_appointment_tool "[SESSION_ID: s42] hi" none none cfg tMs lg =
      ToolResult.obj
        { reply := "Sorry, I couldn\x27t open the booking form at this moment."
          form_url := none
          success := false
          session_id := none } := rfl

/-! ### Claim C9 -/

/-- C9: the replies of `cancel_appointment_tool` and
`reschedule_appointment_tool` do not depend on the `path` and `bot_id`
parameters: two invocations differing only in those produce identical
results (`path` is never read; `bot_id` is only logged); this holds on the
exception path too, whose failure reply reads only the session id. -/
theorem C9_cancel_reschedule_ignore_path_bot
    (query : String) (session_id p₁ p₂ b₁ b₂ : Option String)
    (cfg : Config) (tMs : Nat) (lg : LoggerOutcome) :
    cancel_appointment_tool query session_id p₁ b₁ cfg tMs lg =
      cancel_appointment_tool query session_id p₂ b₂ cfg tMs lg ∧
    reschedule_appointment_tool query session_id p₁ b₁ cfg tMs lg =
      reschedule_appointment_tool query session_id p₂ b₂ cfg tMs lg := by
  cases lg <;> exact ⟨rfl, rfl⟩

/-! ### Claim C10 -/

/-- C10: a tag with an empty value such as `[PATH:]` yields a `none` field
(the extraction pattern needs a non-empty value) yet is still stripped from
`clean_message` (the removal pattern allows an empty value); a tag whose
value is only whitespace such as `[PATH:   ]` yields the empty string, not
`none`. -/
theorem C10_empty_tag_edge_cases :
    extract_context_from_message "[PATH:] hello" =
      { session_id := none, path := none, bot_id := none, clean_message := "hello" } ∧
    (extract_context_from_message "[PATH:   ] hello").path = some "" ∧
    (extract_context_from_message "[PATH:   ] hello").clean_message = "hello" := by
  refine ⟨by decide, by decide, by decide⟩

/-! ### Claim C2 -/

/-- C2: every call to `get_session_context` raises
`NameError("name 'logger' is not defined")` (the module-level name `logger`
is never bound in server.py); consequently, for every query containing a
`[SESSION_ID:`, `[PATH:` or `[BOT_ID:` marker, `book_appointment_tool`
returns its fixed failure reply and `rag_retrieval_tool` returns the error
string, instead of the normal results. -/
theorem C2_get_session_context_name_error :
    (∀ query, get_session_context query =
      Except.error (PyExc.nameError "name \x27logger\x27 is not defined")) ∧
    (∀ query session_id bot_id cfg tMs lg, hasMarker query = true →
      book_appointment_tool query session_id bot_id cfg tMs lg =
        ToolResult.obj
          { reply := "Sorry, I couldn\x27t open the booking form at this moment."
            form_url := none
            success := false
            session_id := session_id }) ∧
    (∀ query session_id path bot_id lg pc, hasMarker query = true →
      rag_retrieval_tool query session_id path bot_id lg pc =
        ToolResult.text
          "Error retrieving context from Pinecone: name \x27logger\x27 is not defined") := by
  refine ⟨fun query => rfl, ?_, ?_⟩
  · intro query session_id bot_id cfg tMs lg h
    unfold book_appointment_tool bookBody
    rw [markerGuard_of_hasMarker h]
    rfl
  · intro query session_id path bot_id lg pc h
    unfold rag_retrieval_tool ragBody
    rw [markerGuard_of_hasMarker h]
    rfl

/-- C2 witness: the theorem applied at a concrete marked query. -/
theorem C2_witness :
    book_appointment_tool "[BOT_ID: b1] hi" (some "sX") none ⟨"a", "b", "c", "d"⟩ 3
        LoggerOutcome.ok =
      ToolResult.obj
        { reply := "Sorry, I couldn\x27t open the booking form at this moment."
          form_url := none
          success := false
          session_id := some "sX" } ∧
    rag_retrieval_tool "[PATH: e1/q] hi" none none none LoggerOutcome.ok
        (PineconeOutcome.returns ["h"]) =
      ToolResult.text
        "Error retrieving context from Pinecone: name \x27logger\x27 is not defined" :=
  ⟨C2_get_session_context_name_error.2.1 _ _ _ _ _ _ (by decide),
   C2_get_session_context_name_error.2.2 _ _ _ _ _ _ (by decide)⟩

/-! ### Claim C3 -/

/-- C3 counterexample: on an exception (here the `NameError` triggered by a
session marker), `rag_retrieval_tool` returns a plain error string — not a
reply object with `success == false` — contradicting the claim that every
handler converts exceptions into a `success: false` reply object. -/
theorem C3_counterexample_rag_plain_error :
    rag_retrieval_tool "[SESSION_ID: s7] hello" none none none LoggerOutcome.ok
        (PineconeOutcome.returns ["hit"]) =
      ToolResult.text
        "Error retrieving context from Pinecone: name \x27logger\x27 is not defined" := rfl

/-- C3 (amended): every handler returns normally.  The three appointment
handlers convert any exception in their body — the marker-induced
`NameError`, or a failing session-logger creation — into a JSON reply with
`success = false` carrying the `session_id` in scope at the raise;
`rag_retrieval_tool` converts exceptions into the plain string
`"Error retrieving context from Pinecone: {e}"` rather than a
`success`-flagged reply object. -/
theorem C3_handlers_degrade_gracefully :
    (∀ query session_id bot_id cfg tMs lg e,
      bookBody query session_id bot_id cfg tMs lg = Except.error e →
      book_appointment_tool query session_id bot_id cfg tMs lg =
        ToolResult.obj
          { reply := "Sorry, I couldn\x27t open the booking form at this moment."
            form_url := none
            success := false
            session_id := e.sidAtRaise }) ∧
    (∀ query session_id path bot_id cfg tMs lg e,
      cancelBody query session_id path bot_id cfg tMs lg = Except.error e →
      cancel_appointment_tool query session_id path bot_id cfg tMs lg =
        ToolResult.obj
          { reply := "Sorry, I couldn\x27t open the appointment cancellation form at this moment."
            form_url := none
            success := false
            session_id := e.sidAtRaise }) ∧
    (∀ query session_id path bot_id cfg tMs lg e,
      rescheduleBody query session_id path bot_id cfg tMs lg = Except.error e →
      reschedule_appointment_tool query session_id path bot_id cfg tMs lg =
        ToolResult.obj
          { reply := "Sorry, I couldn\x27t open the appointment rescheduling form at this moment."
            form_url := none
            success := false
            session_id := e.sidAtRaise }) ∧
    (∀ query session_id path bot_id lg pc e,
      ragBody query session_id path bot_id lg pc = Except.error e →
      rag_retrieval_tool query session_id path bot_id lg pc =
        ToolResult.text ("Error retrieving context from Pinecone: " ++ e.exc.msg)) := by
  refine ⟨?_, ?_, ?_, ?_⟩
  · intro query session_id bot_id cfg tMs lg e h
    unfold book_appointment_tool
    rw [h]
  · intro query session_id path bot_id cfg tMs lg e h
    unfold cancel_appointment_tool
    rw [h]
  · intro query session_id path bot_id cfg tMs lg e h
    unfold reschedule_appointment_tool
    rw [h]
  · intro query session_id path bot_id lg pc e h
    unfold rag_retrieval_tool
    rw [h]

/-- C3 witness: the amended theorem applied at concrete raising inputs — a
marker-induced `NameError` in `book_appointment_tool`, a failing
session-logger creation in `cancel_appointment_tool`, and a failing
outbound search in `rag_retrieval_tool`. -/
theorem C3_witness :
    book_appointment_tool "[PATH: a/b] book" (some "sZ") none ⟨"1", "2", "3", "4"⟩ 9
        LoggerOutcome.ok =
      ToolResult.obj
        { reply := "Sorry, I couldn\x27t open the booking form at this moment."
          form_url := none
          success := false
          session_id := some "sZ" } ∧
    cancel_appointment_tool "cancel it" none none none ⟨"1", "2", "3", "4"⟩ 9
        (LoggerOutcome.raises "disk full") =
      ToolResult.obj
        { reply := "Sorry, I couldn\x27t open the appointment cancellation form at this moment."
          form_url := none
          success := false
          session_id := some "fallback-session-id" } ∧
    rag_retrieval_tool "plain question" none none none LoggerOutcome.ok
        (PineconeOutcome.raises "boom") =
      ToolResult.text "Error retrieving context from Pinecone: boom" :=
  ⟨C3_handlers_degrade_gracefully.1 _ _ _ _ _ _
      { exc := PyExc.nameError "name \x27logger\x27 is not defined", sidAtRaise := some "sZ" } rfl,
   C3_handlers_degrade_gracefully.2.1 _ _ _ _ _ _ _
      { exc := PyExc.loggerFailure "disk full", sidAtRaise := some "fallback-session-id" } rfl,
   C3_handlers_degrade_gracefully.2.2.2 _ _ _ _ _ _
      { exc := PyExc.searchFailure "boom", sidAtRaise := some "fallback-session-id" } rfl⟩

/-! ### Claim C6 -/

/-- C6: whenever `book_appointment_tool` completes its `try` body normally,
the form URL of the reply is built from `FORM_URL_2` exactly when the
resolved `bot_id` equals `"fp01"` and from `FORM_URL_1` for every other
`bot_id` including `none` (on normal completions the query carries no
marker, so the resolved `bot_id` is the parameter), with the resolved
session id and the millisecond timestamp appended as query parameters. -/
theorem C6_book_form_url_selection
    (cfg : Config) (query : String) (session_id bot_id : Option String)
    (tMs : Nat) (lg : LoggerOutcome) (r : ToolReply)
    (h : bookBody query session_id bot_id cfg tMs lg = Except.ok r) :
    r.form_url = some (withSessionParams
      (if bot_id = some "fp01" then cfg.FORM_URL_2 else cfg.FORM_URL_1)
      (sessionFallback session_id) tMs) := by
  unfold bookBody at h
  cases hg : markerGuard query with
  | true =>
    rw [hg] at h
    simp [get_session_context] at h
  | false =>
    rw [hg] at h
    simp only [Bool.false_eq_true, if_false] at h
    cases lg with
    | raises msg => simp at h
    | ok =>
      cases h
      rfl

/-- C6 witness: the theorem applied at a concrete normal completion with
`bot_id = "fp01"` (second URL selected) and the fallback session id. -/
theorem C6_witness :
    bookBody "please book" none (some "fp01") ⟨"u1", "u2", "c", "r"⟩ 5 LoggerOutcome.ok =
      Except.ok
        { reply := "I\x27m opening the appointment booking form for you. Please fill it out to book your appointment."
          form_url := some "u2?session_id=fallback-session-id&ts=5"
          success := true
          session_id := some "fallback-session-id" } ∧
    ({ reply := "I\x27m opening the appointment booking form for you. Please fill it out to book your appointment."
       form_url := some "u2?session_id=fallback-session-id&ts=5"
       success := true
       session_id := some "fallback-session-id" } : ToolReply).form_url =
      some (withSessionParams "u2" (sessionFallback none) 5) :=
  ⟨rfl, C6_book_form_url_selection ⟨"u1", "u2", "c", "r"⟩ "please book" none (some "fp01") 5
    LoggerOutcome.ok _ rfl⟩

/-! ### Claim C7 -/

/-- C7: `get_session_logger` is idempotent per key.  A falsy `session_id`
(`None` or `""`) is replaced by the sentinel `NO_SESSION` before the key is
built, so such calls coincide with calls passing `NO_SESSION`; a call whose
key is already cached returns the cached logger and leaves the cache
unchanged; and an immediate second call with the same (project, session)
pair returns exactly the first call's logger and cache, hence the same
logger instance bound to the same file path. -/
theorem C7_get_session_logger_idempotent :
    (∀ st proj sid lvl date,
      get_session_logger (get_session_logger st proj sid lvl date).2 proj sid lvl date =
        get_session_logger st proj sid lvl date) ∧
    (∀ st proj lvl date,
      get_session_logger st proj none lvl date =
        get_session_logger st proj (some "NO_SESSION") lvl date ∧
      get_session_logger st proj (some "") lvl date =
        get_session_logger st proj (some "NO_SESSION") lvl date) ∧
    (∀ st proj sid lvl date l,
      assocFind (sessionKey proj sid) st = some l →
      get_session_logger st proj sid lvl date = (l, st)) := by
  refine ⟨?_, ?_, ?_⟩
  · intro st proj sid lvl date
    unfold get_session_logger
    cases hfind : assocFind (proj ++ "_" ++ effectiveSid sid) st with
    | some l => simp [hfind]
    | none => simp [hfind, assocFind]
  · intro st proj lvl date
    exact ⟨rfl, rfl⟩
  · intro st proj sid lvl date l hfind
    have h' : assocFind (proj ++ "_" ++ effectiveSid sid) st = some l := hfind
    unfold get_session_logger
    simp [h']

/-- C7 witness: the cached-hit clause applied at a concrete cache holding
the key `P_s`. -/
theorem C7_witness :
    get_session_logger [("P_s", ⟨"nm", "fp", 0, false⟩)] "P" (some "s") 20 "2026-10-12" =
      (⟨"nm", "fp", 0, false⟩, [("P_s", ⟨"nm", "fp", 0, false⟩)]) :=
  C7_get_session_logger_idempotent.2.2 _ "P" (some "s") 20 "2026-10-12" _ rfl

/-! ### Claim C5 -/

theorem takeUntilRB_closed (x post : List Char) (hxb : ']' ∉ x) :
    takeUntilRB (x ++ ']' :: post) = some (x, post) := by
  induction x with
  | nil => rfl
  | cons a as ih =>
    have ha : ¬(a = ']') := fun h => hxb (h ▸ List.mem_cons_self a as)
    rw [List.cons_append, takeUntilRB]
    rw [if_neg ha, ih (fun h => hxb (List.mem_cons_of_mem a h))]

theorem findTagValue_at_match (tag x post : List Char)
    (htag : tag ≠ []) (hx : x ≠ []) (hxb : ']' ∉ x) :
    findTagValue tag (tag ++ (x ++ ']' :: post)) = some (trimChars x) := by
  obtain ⟨t, ts, rfl⟩ : ∃ t ts, tag = t :: ts := by
    cases tag with
    | nil => exact absurd rfl htag
    | cons t ts => exact ⟨t, ts, rfl⟩
  have hpre : (t :: ts).isPrefixOf (t :: (ts ++ (x ++ ']' :: post))) = true :=
    List.isPrefixOf_iff_prefix.mpr ⟨x ++ ']' :: post, by simp⟩
  have hxe : x.isEmpty = false := by
    cases x with
    | nil => exact absurd rfl hx
    | cons _ _ => rfl
  rw [List.cons_append, findTagValue, if_pos (by exact_mod_cast hpre)]
  have hdrop : (t :: (ts ++ (x ++ ']' :: post))).drop (t :: ts).length =
      x ++ ']' :: post := by
    rw [List.length_cons, List.drop_succ_cons, List.drop_left]
  rw [hdrop, takeUntilRB_closed x post hxb]
  simp [hxe]

theorem findTagValue_cons_no_match (tag : List Char) (c : Char) (cs : List Char)
    (h : tag.isPrefixOf (c :: cs) = false) :
    findTagValue tag (c :: cs) = findTagValue tag cs := by
  rw [findTagValue, if_neg (by simp [h])]

/-- C5 (amended): for every message of the form
`pre ++ "[SESSION_ID:" ++ x ++ "]" ++ post` where `x` is non-empty, contains
no `']'`, and no position inside `pre` begins a `[SESSION_ID:` occurrence
(so the displayed tag is the first match), `extract_context_from_message`
returns `session_id = x` trimmed of surrounding whitespace.  The tag value
may reappear in `clean_message` when it also occurs outside the tags — the
removal pass strips tag occurrences only (see the counterexample). -/
theorem C5_session_id_first_match (pre x post : List Char)
    (hx : x ≠ []) (hxb : ']' ∉ x)
    (hpre : ∀ i, i < pre.length →
      sessionTagChars.isPrefixOf
        ((pre ++ (sessionTagChars ++ (x ++ ']' :: post))).drop i) = false) :
    (extract_context_from_message
        (String.mk (pre ++ (sessionTagChars ++ (x ++ ']' :: post))))).session_id =
      some (String.mk (trimChars x)) := by
  show (findTagValue sessionTagChars
      (pre ++ (sessionTagChars ++ (x ++ ']' :: post)))).map (fun l => String.mk l) =
    some (String.mk (trimChars x))
  induction pre with
  | nil =>
    rw [List.nil_append,
      findTagValue_at_match sessionTagChars x post (by decide) hx hxb]
    rfl
  | cons c cs ih =>
    have h0 := hpre 0 (by simp)
    rw [List.drop_zero, List.cons_append] at h0
    rw [List.cons_append, findTagValue_cons_no_match _ _ _ h0]
    exact ih (fun i hi => by
      have := hpre (i + 1) (by simpa using Nat.succ_lt_succ hi)
      rwa [List.cons_append, List.drop_succ_cons] at this)

/-- C5 counterexample: for the message `"[SESSION_ID: abc] abc"` the
extracted session id `abc` does reappear in `clean_message` (the removal
pass only strips tag occurrences, not other occurrences of the value), so
the claim's final conjunct is false as stated. -/
theorem C5_counterexample_value_reappears :
    (extract_context_from_message "[SESSION_ID: abc] abc").session_id = some "abc" ∧
    (extract_context_from_message "[SESSION_ID: abc] abc").clean_message = "abc" ∧
    containsSubStr "abc"
      (extract_context_from_message "[SESSION_ID: abc] abc").clean_message = true :=
  ⟨by decide, by decide, by decide⟩

/-- C5 witness: the amended theorem applied to
`"hello [SESSION_ID: abc ] more"`. -/
theorem C5_witness :
    (extract_context_from_message "hello [SESSION_ID: abc ] more").session_id =
      some "abc" :=
  C5_session_id_first_match "hello ".toList " abc ".toList " more".toList
    (by decide) (by decide) (by decide)

/-! ### Claim C8 -/

theorem pySplit_ne_nil (c : Char) (l : List Char) : pySplit c l ≠ [] := by
  cases l with
  | nil => simp [pySplit]
  | cons x xs =>
    rw [pySplit]
    rcases hps : pySplit c xs with _ | ⟨s, ss⟩
    · simp
    · by_cases hx : x = c <;> simp [hx]

theorem pySplit_cons_sep (c : Char) (xs : List Char) {s : List Char}
    {ss : List (List Char)} (h : pySplit c xs = s :: ss) :
    pySplit c (c :: xs) = [] :: s :: ss := by
  rw [pySplit, h]
  simp

theorem pySplit_cons_nonsep {x c : Char} (hx : ¬x = c) (xs : List Char)
    {s : List Char} {ss : List (List Char)} (h : pySplit c xs = s :: ss) :
    pySplit c (x :: xs) = (x :: s) :: ss := by
  rw [pySplit, h]
  simp [hx]

theorem pySplit_concat_sep (c : Char) (l : List Char) :
    pySplit c (l ++ [c]) = pySplit c l ++ [[]] := by
  induction l with
  | nil =>
    rw [List.nil_append]
    rw [pySplit_cons_sep c [] (by rfl)]
    rfl
  | cons y ys ih =>
    obtain ⟨s, ss, hss⟩ := List.exists_cons_of_ne_nil (pySplit_ne_nil c ys)
    have hih : pySplit c (ys ++ [c]) = s :: (ss ++ [[]]) := by
      rw [ih, hss]; rfl
    by_cases hy : y = c
    · rw [hy, List.cons_append, pySplit_cons_sep c (ys ++ [c]) hih,
        pySplit_cons_sep c ys hss]
      rfl
    · rw [List.cons_append, pySplit_cons_nonsep hy (ys ++ [c]) hih,
        pySplit_cons_nonsep hy ys hss]
      rfl

theorem pySplit_dropWhile_filter (c : Char) (l : List Char) :
    (pySplit c (l.dropWhile (· = c))).filter (fun s => !s.isEmpty) =
      (pySplit c l).filter (fun s => !s.isEmpty) := by
  induction l with
  | nil => rfl
  | cons x xs ih =>
    by_cases hx : x = c
    · have hstep : (x :: xs).dropWhile (· = c) = xs.dropWhile (· = c) := by
        rw [List.dropWhile_cons, if_pos (by simp [hx])]
      rw [hstep, ih, hx]
      obtain ⟨s, ss, hss⟩ := List.exists_cons_of_ne_nil (pySplit_ne_nil c xs)
      rw [pySplit_cons_sep c xs hss, hss]
      rfl
    · rw [List.dropWhile_cons, if_neg (by simp [hx])]

theorem pySplit_dropTrailing_filter (c : Char) (l : List Char) :
    (pySplit c (dropTrailing c l)).filter (fun s => !s.isEmpty) =
      (pySplit c l).filter (fun s => !s.isEmpty) := by
  induction l using List.reverseRecOn with
  | nil => rfl
  | append_singleton ys a ih =>
    by_cases ha : a = c
    · subst ha
      have hdt : dropTrailing a (ys ++ [a]) = dropTrailing a ys := by
        unfold dropTrailing
        rw [List.reverse_append, List.reverse_singleton]
        simp [List.dropWhile_cons]
      rw [hdt, ih, pySplit_concat_sep, List.filter_append]
      simp
    · have hdt : dropTrailing c (ys ++ [a]) = ys ++ [a] := by
        unfold dropTrailing
        rw [List.reverse_append, List.reverse_singleton]
        simp [List.dropWhile_cons, ha]
      rw [hdt]

theorem pySplit_concat_nonsep {c a : Char} (ha : ¬a = c) (l : List Char) :
    ∃ front seg, pySplit c l = front ++ [seg] ∧
      pySplit c (l ++ [a]) = front ++ [seg ++ [a]] := by
  induction l with
  | nil =>
    refine ⟨[], [], rfl, ?_⟩
    rw [List.nil_append, pySplit_cons_nonsep ha [] (by rfl)]
    rfl
  | cons y l ih =>
    obtain ⟨front, seg, h1, h2⟩ := ih
    by_cases hy : y = c
    · subst hy
      obtain ⟨s, ss, hss⟩ := List.exists_cons_of_ne_nil (pySplit_ne_nil y l)
      obtain ⟨s', ss', hss'⟩ := List.exists_cons_of_ne_nil (pySplit_ne_nil y (l ++ [a]))
      refine ⟨[] :: front, seg, ?_, ?_⟩
      · rw [pySplit_cons_sep y l hss, ← hss, h1]
        rfl
      · rw [List.cons_append, pySplit_cons_sep y (l ++ [a]) hss', ← hss', h2]
        rfl
    · cases front with
      | nil =>
        rw [List.nil_append] at h1 h2
        refine ⟨[], y :: seg, ?_, ?_⟩
        · rw [pySplit_cons_nonsep hy l h1]
          rfl
        · rw [List.cons_append, pySplit_cons_nonsep hy (l ++ [a]) h2]
          simp
      | cons f fs =>
        rw [List.cons_append] at h1 h2
        refine ⟨(y :: f) :: fs, seg, ?_, ?_⟩
        · rw [pySplit_cons_nonsep hy l h1]
          rfl
        · rw [List.cons_append, pySplit_cons_nonsep hy (l ++ [a]) h2]
          rfl

theorem getLastD_pySplit_concat_filter {c a : Char} (ha : ¬a = c) (l : List Char) :
    (pySplit c (l ++ [a])).getLastD [] =
      ((pySplit c (l ++ [a])).filter (fun s => !s.isEmpty)).getLastD [] := by
  obtain ⟨front, seg, _, h2⟩ := pySplit_concat_nonsep ha l
  rw [h2, List.filter_append]
  have hne : (fun s => !List.isEmpty s) (seg ++ [a]) = true := by
    simp
  simp [List.filter_cons, hne]

theorem dropWhile_head_false (p : Char → Bool) (l : List Char) {a : Char}
    {w : List Char} (h : l.dropWhile p = a :: w) : p a = false := by
  induction l with
  | nil => exact absurd h (by simp)
  | cons x xs ih =>
    rw [List.dropWhile_cons] at h
    by_cases hx : p x = true
    · rw [if_pos hx] at h
      exact ih h
    · rw [if_neg hx] at h
      cases h
      exact Bool.not_eq_true _ ▸ hx

theorem pyStrip_shape (c : Char) (l : List Char) :
    pyStrip c l = [] ∨ ∃ l' a, pyStrip c l = l' ++ [a] ∧ ¬a = c := by
  unfold pyStrip dropTrailing
  rcases hd : (l.dropWhile (· = c)).reverse.dropWhile (· = c) with _ | ⟨a, w⟩
  · left
    rfl
  · right
    refine ⟨w.reverse, a, ?_, ?_⟩
    · rw [List.reverse_cons]
    · have := dropWhile_head_false (· = c) (l.dropWhile (· = c)).reverse hd
      simpa using this

/-- C8: `get_bot_id_from_path` returns the last non-empty segment of the
path split on `/` (empty string when the path has no segments); the two
spec examples hold; and the session-context resolution derives `bot_id`
this way from `path` when `bot_id` is falsy and `path` is truthy. -/
theorem C8_get_bot_id_last_segment :
    (∀ path, get_bot_id_from_path path = lastNonEmptySegment path) ∧
    get_bot_id_from_path "e1/burneteyecarepinecone/QApixW" = "QApixW" ∧
    get_bot_id_from_path "" = "" ∧
    (∀ query, pyTruthy (extract_context_from_message query).bot_id = false →
      pyTruthy (extract_context_from_message query).path = true →
      (resolveSessionContext query).bot_id =
        some (get_bot_id_from_path
          (sidStr (extract_context_from_message query).path))) := by
  refine ⟨?_, by decide, by decide, ?_⟩
  · intro p
    unfold get_bot_id_from_path lastNonEmptySegment
    by_cases hp : p.isEmpty
    · rw [if_pos hp, (String.isEmpty_iff p).mp hp]
      rfl
    · rw [if_neg hp]
      congr 1
      rw [← pySplit_dropWhile_filter '/' p.toList, ← pySplit_dropTrailing_filter '/']
      show (pySplit '/' (pyStrip '/' p.toList)).getLastD [] =
        ((pySplit '/' (pyStrip '/' p.toList)).filter (fun s => !s.isEmpty)).getLastD []
      rcases pyStrip_shape '/' p.toList with h | ⟨l', a, hm, ha⟩
      · rw [h]
        rfl
      · rw [hm]
        exact getLastD_pySplit_concat_filter ha l'
  · intro query hbot hpath
    unfold resolveSessionContext
    rw [if_pos (by rw [hbot, hpath]; rfl)]

/-- C8 witness: the derivation clause applied to a message carrying only a
`PATH` tag — `bot_id` is resolved to the last segment of the path. -/
theorem C8_witness :
    (resolveSessionContext "[PATH: e1/clinic/QApixW] hi").bot_id =
      some "QApixW" :=
  C8_get_bot_id_last_segment.2.2.2 "[PATH: e1/clinic/QApixW] hi" (by decide) (by decide)

/-! ### Claim C4 -/

theorem securityBlocked_iff (url : String) :
    securityBlocked url = true ↔ securitySpecCondition url := by
  unfold securityBlocked securitySpecCondition
  rw [Bool.and_eq_true, Bool.not_eq_true', List.any_eq_true]
  constructor
  · rintro ⟨⟨p, hp, hmatch⟩, hdev⟩
    constructor
    · simp only [dangerousPatterns, List.mem_append, List.mem_cons,
        List.not_mem_nil, or_false, List.mem_map, List.mem_range] at hp
      rcases hp with ((rfl | rfl | rfl | rfl | rfl) | ⟨i, hi, rfl⟩) | (rfl | rfl | rfl)
      · exact Or.inl hmatch
      · exact Or.inr (Or.inl hmatch)
      · exact Or.inr (Or.inr (Or.inl hmatch))
      · exact Or.inr (Or.inr (Or.inr (Or.inl hmatch)))
      · exact Or.inr (Or.inr (Or.inr (Or.inr (Or.inl hmatch))))
      · exact Or.inr (Or.inr (Or.inr (Or.inr (Or.inr (Or.inl
          ⟨16 + i, by omega, by omega, hmatch⟩)))))
      · exact Or.inr (Or.inr (Or.inr (Or.inr (Or.inr (Or.inr (Or.inl hmatch))))))
      · exact Or.inr (Or.inr (Or.inr (Or.inr (Or.inr (Or.inr (Or.inr (Or.inl hmatch)))))))
      · exact Or.inr (Or.inr (Or.inr (Or.inr (Or.inr (Or.inr (Or.inr (Or.inr hmatch)))))))
    · rintro ⟨hA, hBC⟩
      rw [devException, hA] at hdev
      rcases hBC with h | h <;> rw [h] at hdev <;> simp at hdev
  · rintro ⟨hdisj, hnotdev⟩
    refine ⟨?_, ?_⟩
    · rcases hdisj with h | h | h | h | h | ⟨n, hn1, hn2, h⟩ | h | h | h
      · exact ⟨_, by simp [dangerousPatterns], h⟩
      · exact ⟨_, by simp [dangerousPatterns], h⟩
      · exact ⟨_, by simp [dangerousPatterns], h⟩
      · exact ⟨_, by simp [dangerousPatterns], h⟩
      · exact ⟨_, by simp [dangerousPatterns], h⟩
      · refine ⟨("172." ++ toString n ++ ".").toList, ?_, h⟩
        simp only [dangerousPatterns, List.mem_append, List.mem_map, List.mem_range]
        exact Or.inl (Or.inr ⟨n - 16, by omega, by rw [show 16 + (n - 16) = n by omega]⟩)
      · exact ⟨_, by simp [dangerousPatterns], h⟩
      · exact ⟨_, by simp [dangerousPatterns], h⟩
      · exact ⟨_, by simp [dangerousPatterns], h⟩
    · cases hb : devException url with
      | false => rfl
      | true =>
        exfalso
        apply hnotdev
        simpa [devException, Bool.and_eq_true, Bool.or_eq_true] using hb

theorem validate_url_reaches_loop (url : String)
    (h1 : (pyUrlparse url).scheme = "http" ∨ (pyUrlparse url).scheme = "https")
    (h2 : 3 ≤ (pyUrlparse url).netloc.length)
    (h3 : (pyUrlparse url).netloc.toList.contains '.' = true) :
    validate_url url =
      if securityBlocked url then
        { valid := false, reason := "URL not allowed for security reasons" }
      else { valid := true, reason := "URL is valid" } := by
  have hne : url.isEmpty = false := by
    cases hu : url.isEmpty with
    | false => rfl
    | true =>
      exfalso
      rw [(String.isEmpty_iff url).mp hu] at h1
      rcases h1 with h | h <;> exact absurd h (by decide)
  have hnl : (pyUrlparse url).netloc.isEmpty = false := by
    cases hu : (pyUrlparse url).netloc.isEmpty with
    | false => rfl
    | true =>
      exfalso
      rw [(String.isEmpty_iff _).mp hu] at h2
      exact absurd h2 (by decide)
  have hlen : ¬((pyUrlparse url).netloc.length < 3) := by omega
  have hmem : '.' ∈ (pyUrlparse url).netloc.data := by simpa using h3
  unfold validate_url
  rcases h1 with h | h <;> simp [hne, hnl, hlen, h, h3, hmem]

/-- C4 counterexample: the claim asserts `validate_url("http://localhost:3001")`
is valid (dev exception), but the code rejects it with reason
`Invalid domain format`: the netloc `localhost:3001` contains no dot, so the
domain-format check fires before the dangerous-pattern loop and its
localhost exception are ever reached. -/
theorem C4_counterexample_localhost_3001 :
    validate_url "http://localhost:3001" =
      { valid := false, reason := "Invalid domain format" } := by decide

/-- C4 (amended): for every URL whose parsed scheme is http or https and
whose netloc has length at least 3 and contains a dot, `validate_url`
rejects it for security reasons if and only if the lower-cased URL string —
not just the host — contains one of the block-list substrings (`localhost`,
`127.0.0.1`, `0.0.0.0`, `192.168.`, `10.`, `172.16.`–`172.31.`, `file://`,
`javascript:`, `data:`) and the case-sensitive development exception
(`localhost` with `3001` or `5174`) does not apply.  In particular
`http://192.168.1.5` is rejected for security reasons,
`http://localhost:3001` is rejected earlier with `Invalid domain format`
(its dotless netloc never reaches the dev exception), and `ftp://x.com` is
rejected for its scheme. -/
theorem C4_validate_url_security :
    (∀ url,
      ((pyUrlparse url).scheme = "http" ∨ (pyUrlparse url).scheme = "https") →
      3 ≤ (pyUrlparse url).netloc.length →
      (pyUrlparse url).netloc.toList.contains '.' = true →
      (validate_url url =
          { valid := false, reason := "URL not allowed for security reasons" } ↔
        securitySpecCondition url)) ∧
    validate_url "http://192.168.1.5" =
      { valid := false, reason := "URL not allowed for security reasons" } ∧
    validate_url "http://localhost:3001" =
      { valid := false, reason := "Invalid domain format" } ∧
    validate_url "ftp://x.com" =
      { valid := false, reason := "Only HTTP and HTTPS protocols are allowed" } := by
  refine ⟨?_, by decide, by decide, by decide⟩
  intro url h1 h2 h3
  rw [validate_url_reaches_loop url h1 h2 h3]
  cases hb : securityBlocked url with
  | true =>
    rw [if_pos rfl]
    exact ⟨fun _ => (securityBlocked_iff url).mp hb, fun _ => rfl⟩
  | false =>
    rw [if_neg Bool.false_ne_true]
    constructor
    · intro h
      exact absurd (congrArg UrlCheck.valid h) (by decide)
    · intro hs
      rw [(securityBlocked_iff url).mpr hs] at hb
      exact absurd hb (by decide)

/-- C4 witness: the amended equivalence applied at `http://192.168.1.5`,
whose hypotheses hold concretely. -/
theorem C4_witness :
    (validate_url "http://192.168.1.5" =
        { valid := false, reason := "URL not allowed for security reasons" } ↔
      securitySpecCondition "http://192.168.1.5") :=
  C4_validate_url_security.1 "http://192.168.1.5" (Or.inl (by decide))
    (by decide) (by decide)
